import Mathlib

/-!
Shallow embedding of the LiveKit voice-interview client
(`src/frontend/livekit-voice-client/src/app/page.tsx` of the
`synapsee-dash` repository) together with proofs about its session
lifecycle.

Modelling conventions:

* React `useState` setters are modelled as immediate functional updates of a
  `World` record.  Besides the component state (`status`, `statusType`,
  `isConnecting`, `isConnected`, `room`, `localAudioTrack`, `participants`)
  the record tracks the facts about the outside world the specification
  speaks about: whether a microphone capture is live (`deviceLive`),
  whether the transport connection is open (`connectionOpen`), how many
  playback elements were appended to `document.body` (`domAudioElems`),
  and the room service's live participant registry (`roomRegistry`).
* Every asynchronous boundary (the three `fetch` calls, `Room.connect`,
  `createLocalAudioTrack`, `publishTrack`) is an input supplied by an
  environment record, so a run of `startVoiceInterview`,
  `stopVoiceInterview` or an event delivery is a pure function of the
  starting world and the environment.
* Side effects visible to the claims are recorded in an effect trace.
* Timestamps prepended by `updateStatus` depend on real time and are
  omitted; the claims about messages are substring claims, which a prefix
  does not affect.
-/

/-- Severity tag of a status message, from the `statusType` React state. -/
inductive StatusType
  | info
  | success
  | error
  | warning
deriving DecidableEq

/-- An HTTP response as the client observes it: numeric status and body text. -/
structure HttpResponse where
  status : Nat
  body : String
deriving DecidableEq

/-- `Response.ok` of the fetch API: status in the range 200..299. -/
def HttpResponse.ok (r : HttpResponse) : Bool :=
  decide (200 ≤ r.status) && decide (r.status < 300)

/-- Outcome of a `fetch` call: the promise either rejects (network error)
or resolves with a response. -/
inductive FetchResult
  | reject (msg : String)
  | response (r : HttpResponse)
deriving DecidableEq

/-- Whether a fetch resolved with a 2xx response. -/
def FetchResult.okResp : FetchResult → Bool
  | FetchResult.reject _ => false
  | FetchResult.response r => r.ok

/-- Parsed body of a successful `/get_livekit_token/` response
(the `TokenResponse` interface of the source). -/
structure TokenResponse where
  success : Bool
  token : String
  livekit_url : String
  room_name : String
  participant_name : String
deriving DecidableEq

/-- Outcome of `Room.connect`. -/
inductive ConnectResult
  | ok
  | reject (msg : String)
deriving DecidableEq

/-- Outcome of microphone acquisition and publication inside
`enableMicrophone`: track creation may fail, publication may fail, or
both succeed. -/
inductive MicResult
  | ok
  | createErr (msg : String)
  | publishErr (msg : String)
deriving DecidableEq

/-- Environment of one `startVoiceInterview` run: the results the outside
world hands back at each suspension point. -/
structure StartEnv where
  initFetch : FetchResult
  tokenFetch : FetchResult
  tokenData : TokenResponse
  connect : ConnectResult
  mic : MicResult
deriving DecidableEq

/-- Environment of one `stopVoiceInterview` run. -/
structure TeardownEnv where
  teardown : FetchResult
deriving DecidableEq

/-- The six `RoomEvent` names the client registers handlers for. -/
inductive REvent
  | connected
  | participantConnected
  | participantDisconnected
  | trackSubscribed
  | trackUnsubscribed
  | disconnected
deriving DecidableEq

/-- Kind of a remote track (`Track.Kind` in the source). -/
inductive TKind
  | audio
  | video
deriving DecidableEq

/-- Room events the service can deliver to an established session. -/
inductive RoomEvt
  | participantJoined (identity : String)
  | participantLeft (identity : String)
  | trackSubscribed (kind : TKind) (identity : String)
  | trackUnsubscribed (kind : TKind)
  | disconnected
deriving DecidableEq

/-- Externally visible side effects of the client, recorded in traces. -/
inductive Effect
  | fetchInit (url org refNum : String) (customDuration : Nat)
  | fetchToken (url org refNum participantName roomName : String)
  | fetchStop (url org refNum : String)
  | registerListener (e : REvent)
  | connectAttempt (url tok : String)
  | createMicTrack (echoCancellation noiseSuppression autoGainControl : Bool)
  | publishTrack
  | attachAudio
  | detachTrack
  | trackStop
  | roomDisconnect
deriving DecidableEq

/-- The component state plus the tracked facts about the outside world. -/
structure World where
  status : String
  statusType : StatusType
  isConnecting : Bool
  isConnected : Bool
  room : Option Unit
  localAudioTrack : Option Unit
  participants : List String
  roomRegistry : List String
  deviceLive : Bool
  connectionOpen : Bool
  domAudioElems : Nat
deriving DecidableEq

/-- The fixed `CONFIG` literal of the source. -/
structure Config where
  apiUrl : String
  organization : String
  referenceNumber : String
  participantName : String
  roomName : String
deriving DecidableEq

/-- `CONFIG` from `page.tsx`. -/
def CONFIG : Config :=
  { apiUrl := "http://127.0.0.1:8000"
  , organization := "test_org"
  , referenceNumber := "NORMALIZED_TEST_001"
  , participantName := "candidate_prajwal"
  , roomName := "interview_NORMALIZED_TEST_001" }

/-- The component's initial state (`useState` initialisers), with no device
captured, no connection open and an empty document. -/
def initialWorld : World :=
  { status := "Ready to start voice interview"
  , statusType := StatusType.info
  , isConnecting := false
  , isConnected := false
  , room := none
  , localAudioTrack := none
  , participants := []
  , roomRegistry := []
  , deviceLive := false
  , connectionOpen := false
  , domAudioElems := 0 }

/-- `updateStatus`: store the message and its severity (timestamp omitted,
see the module docstring). -/
def setStatus (w : World) (m : String) (ty : StatusType) : World :=
  { w with status := m, statusType := ty }

/-- `handleParticipantUpdate`: with no room in state the participant list is
cleared, otherwise it is rebuilt from the room service's registry. -/
def handleParticipantUpdate (w : World) : World :=
  match w.room with
  | none => { w with participants := [] }
  | some _ => { w with participants := w.roomRegistry }

/-- `getTokenFromBackend`: POST `/start_livekit_interview/` (with the
`Organization` header and `ref_num`/`custom_duration` body), then on a 2xx
response GET `/get_livekit_token/` (with the `Organization` header and the
query parameters); a rejection or non-2xx response raises an error whose
message for the non-2xx case carries the numeric status and the body text. -/
def getTokenFromBackend (env : StartEnv) (w : World) :
    World × Except String TokenResponse × List Effect :=
  let w := setStatus w "Initializing interview backend..." StatusType.info
  let tInit : List Effect :=
    [Effect.fetchInit (CONFIG.apiUrl ++ "/start_livekit_interview/")
      CONFIG.organization CONFIG.referenceNumber 30]
  match env.initFetch with
  | FetchResult.reject msg => (w, Except.error msg, tInit)
  | FetchResult.response r =>
    if r.ok then
      let w := setStatus w "Getting access token..." StatusType.info
      let tTok := tInit ++
        [Effect.fetchToken (CONFIG.apiUrl ++ "/get_livekit_token/")
          CONFIG.organization CONFIG.referenceNumber CONFIG.participantName
          CONFIG.roomName]
      match env.tokenFetch with
      | FetchResult.reject msg => (w, Except.error msg, tTok)
      | FetchResult.response r2 =>
        if r2.ok then (w, Except.ok env.tokenData, tTok)
        else
          (w, Except.error
            ("Token failed: " ++ Nat.repr r2.status ++ " - " ++ r2.body), tTok)
    else
      (w, Except.error
        ("Init failed: " ++ Nat.repr r.status ++ " - " ++ r.body), tInit)

/-- `enableMicrophone`: request a local audio track with echo cancellation,
noise suppression and automatic gain control; on success publish it and
store the handle.  A successfully created track captures the device even
when the subsequent publish fails, and in that failure case the handle is
never stored (the `audioTrack` local goes out of scope unstopped). -/
def enableMicrophone (env : StartEnv) (w : World) : World × List Effect :=
  let w := setStatus w "🎤 Enabling microphone..." StatusType.info
  match env.mic with
  | MicResult.createErr msg =>
    (setStatus w ("❌ Microphone error: " ++ msg) StatusType.error,
      [Effect.createMicTrack true true true])
  | MicResult.publishErr msg =>
    let w := { w with deviceLive := true }
    (setStatus w ("❌ Microphone error: " ++ msg) StatusType.error,
      [Effect.createMicTrack true true true, Effect.publishTrack])
  | MicResult.ok =>
    let w := { w with deviceLive := true, localAudioTrack := some () }
    (setStatus w
      "🎤✅ Microphone active! Speak to the AI interviewer. Agent should join shortly..."
      StatusType.success,
      [Effect.createMicTrack true true true, Effect.publishTrack])

/-- The `RoomEvent.Connected` handler: success status, `isConnected := true`,
`room` stored, participant list rebuilt (microphone setup follows in
`startVoiceInterview`). -/
def onRoomConnected (w : World) : World :=
  let w := setStatus w "🎉 Connected to LiveKit! Setting up microphone..."
    StatusType.success
  let w := { w with isConnected := true, room := some () }
  handleParticipantUpdate w

/-- The `finally` block of `startVoiceInterview`. -/
def finishConnecting (w : World) : World :=
  { w with isConnecting := false }

/-- The order in which `startVoiceInterview` registers the six room event
handlers, all before `Room.connect` is awaited. -/
def roomListenerOrder : List REvent :=
  [REvent.connected, REvent.participantConnected,
   REvent.participantDisconnected, REvent.trackSubscribed,
   REvent.trackUnsubscribed, REvent.disconnected]

/-- `startVoiceInterview`: guard against re-entry, acquire credentials,
register the six listeners, connect, and on the connected event set up the
microphone; any thrown error is caught and surfaced as a
`Connection failed` status, and the `finally` block clears `isConnecting`. -/
def startVoiceInterview (env : StartEnv) (w : World) : World × List Effect :=
  if w.isConnecting || w.isConnected then (w, [])
  else
    let w := { w with isConnecting := true }
    let w := setStatus w "Starting voice interview..." StatusType.info
    match getTokenFromBackend env w with
    | (w1, Except.error msg, t) =>
      (finishConnecting
        (setStatus w1 ("❌ Connection failed: " ++ msg) StatusType.error), t)
    | (w1, Except.ok td, t) =>
      let w2 := setStatus w1 "✅ Token received, connecting to LiveKit..."
        StatusType.success
      let t2 := t ++ roomListenerOrder.map Effect.registerListener ++
        [Effect.connectAttempt td.livekit_url td.token]
      match env.connect with
      | ConnectResult.reject msg =>
        (finishConnecting
          (setStatus w2 ("❌ Connection failed: " ++ msg) StatusType.error), t2)
      | ConnectResult.ok =>
        let w3 := { w2 with connectionOpen := true }
        let w4 := onRoomConnected w3
        let wt := enableMicrophone env w4
        (finishConnecting wt.1, t2 ++ wt.2)

/-- Delivery of one room event to the registered handlers.  The
`TrackSubscribed` handler attaches audio tracks and appends the element to
`document.body`; the `TrackUnsubscribed` handler detaches (the element
itself is not removed from the document); the `Disconnected` handler clears
the component state without stopping the local track. -/
def deliverEvent (w : World) : RoomEvt → World × List Effect
  | RoomEvt.participantJoined id =>
    let w := { w with roomRegistry := w.roomRegistry ++ [id] }
    let w := setStatus w ("👤 " ++ id ++ " joined the interview") StatusType.info
    (handleParticipantUpdate w, [])
  | RoomEvt.participantLeft id =>
    let w := { w with roomRegistry := w.roomRegistry.erase id }
    let w := setStatus w ("👋 " ++ id ++ " left the interview") StatusType.info
    (handleParticipantUpdate w, [])
  | RoomEvt.trackSubscribed TKind.audio id =>
    let w := setStatus w ("🔊 Now receiving audio from " ++ id) StatusType.success
    ({ w with domAudioElems := w.domAudioElems + 1 }, [Effect.attachAudio])
  | RoomEvt.trackSubscribed TKind.video _ => (w, [])
  | RoomEvt.trackUnsubscribed _ => (w, [Effect.detachTrack])
  | RoomEvt.disconnected =>
    let w := setStatus w "📴 Disconnected from interview" StatusType.info
    ({ w with
        isConnected := false, room := none, localAudioTrack := none,
        participants := [], connectionOpen := false }, [])

/-- Delivery of a list of room events, collecting the trace. -/
def deliverEvents (w : World) : List RoomEvt → World × List Effect
  | [] => (w, [])
  | e :: es =>
    let p := deliverEvent w e
    let q := deliverEvents p.1 es
    (q.1, p.2 ++ q.2)

/-- `stopVoiceInterview`: stop and clear the stored track if any, disconnect
the room if any (which fires the `Disconnected` handler), then POST the
best-effort `/stop_livekit_interview/` teardown; a rejected teardown fetch
is caught and logged, a resolved one — whatever its status — yields the
success message. -/
def stopVoiceInterview (env : TeardownEnv) (w : World) : World × List Effect :=
  let w := setStatus w "Stopping interview..." StatusType.info
  let p :=
    match w.localAudioTrack with
    | some _ =>
      ({ w with deviceLive := false, localAudioTrack := none },
        [Effect.trackStop])
    | none => (w, ([] : List Effect))
  let q :=
    match p.1.room with
    | some _ =>
      let w1 := { p.1 with connectionOpen := false }
      let w1 := setStatus w1 "📴 Disconnected from interview" StatusType.info
      ({ w1 with
          isConnected := false, room := none, localAudioTrack := none,
          participants := [] }, [Effect.roomDisconnect])
    | none => (p.1, ([] : List Effect))
  let t3 : List Effect :=
    [Effect.fetchStop (CONFIG.apiUrl ++ "/stop_livekit_interview/")
      CONFIG.organization CONFIG.referenceNumber]
  let wFin :=
    match env.teardown with
    | FetchResult.reject msg =>
      setStatus q.1 ("❌ Stop error: " ++ msg) StatusType.error
    | FetchResult.response _ =>
      setStatus q.1 "✅ Interview stopped successfully" StatusType.success
  (wFin, p.2 ++ q.2 ++ t3)

/-- The specification's abstract `ConnectionState`, read off the component
state: `Connecting` while `isConnecting`, else `Connected` while
`isConnected`, else `Failed` when the surfaced status has error severity,
otherwise `Idle` (the spec's transient `Disconnected` also lands here). -/
inductive ConnState
  | Idle
  | Connecting
  | Connected
  | Disconnected
  | Failed
deriving DecidableEq

/-- Abstraction map from the component state to the spec's state machine. -/
def connState (w : World) : ConnState :=
  if w.isConnecting then ConnState.Connecting
  else if w.isConnected then ConnState.Connected
  else if w.statusType = StatusType.error then ConnState.Failed
  else ConnState.Idle

/-- Count the effects in a trace satisfying a predicate. -/
def countEff (p : Effect → Bool) : List Effect → Nat
  | [] => 0
  | e :: t => (if p e then 1 else 0) + countEff p t

/-- Whether an effect is the audio-element attach of `TrackSubscribed`. -/
def isAttachEff : Effect → Bool
  | Effect.attachAudio => true
  | _ => false

/-- Whether an effect is the `track.detach()` of `TrackUnsubscribed`. -/
def isDetachEff : Effect → Bool
  | Effect.detachTrack => true
  | _ => false

/-- Whether an effect is a `createLocalAudioTrack` attempt. -/
def isMicCreateEff : Effect → Bool
  | Effect.createMicTrack _ _ _ => true
  | _ => false

/-- Whether an effect is a `publishTrack` attempt. -/
def isPublishEff : Effect → Bool
  | Effect.publishTrack => true
  | _ => false

/-- Whether an effect is a `Room.connect` attempt. -/
def isConnectEff : Effect → Bool
  | Effect.connectAttempt _ _ => true
  | _ => false

/-- Whether an effect is a `localAudioTrack.stop()` call. -/
def isTrackStopEff : Effect → Bool
  | Effect.trackStop => true
  | _ => false

/-- Whether an effect is an HTTP request carrying the configured
`Organization` header (non-request effects pass vacuously). -/
def effOrgOk : Effect → Bool
  | Effect.fetchInit _ org _ _ => org == CONFIG.organization
  | Effect.fetchToken _ org _ _ _ => org == CONFIG.organization
  | Effect.fetchStop _ org _ => org == CONFIG.organization
  | _ => true

/-- The listener registrations appearing strictly before the first
connection attempt in a trace. -/
def regsUntilConnect : List Effect → List REvent
  | [] => []
  | Effect.connectAttempt _ _ :: _ => []
  | Effect.registerListener e :: t => e :: regsUntilConnect t
  | _ :: t => regsUntilConnect t

/-- Number of audio `trackSubscribed` events in a delivered event list. -/
def countAudioSub : List RoomEvt → Nat
  | [] => 0
  | RoomEvt.trackSubscribed TKind.audio _ :: es => countAudioSub es + 1
  | _ :: es => countAudioSub es

/-- Number of `trackUnsubscribed` events in a delivered event list. -/
def countUnsub : List RoomEvt → Nat
  | [] => 0
  | RoomEvt.trackUnsubscribed _ :: es => countUnsub es + 1
  | _ :: es => countUnsub es

/-- Boolean test that a character list starts with a given needle. -/
def hasPre : List Char → List Char → Bool
  | [], _ => true
  | _ :: _, [] => false
  | a :: as, b :: bs => a == b && hasPre as bs

/-- Boolean test that a needle occurs somewhere in a character list. -/
def subOcc : List Char → List Char → Bool
  | n, [] => n.isEmpty
  | n, b :: bs => hasPre n (b :: bs) || subOcc n bs

/-- Substring test on strings, via the underlying character lists. -/
def strContains (n h : String) : Bool :=
  subOcc n.data h.data

/-- Concrete 2xx response used by the scenario runs. -/
def ok200 : HttpResponse := { status := 200, body := "ok" }

/-- The credential payload of the spec's success scenario. -/
def goodToken : TokenResponse :=
  { success := true
  , token := "abc"
  , livekit_url := "wss://x"
  , room_name := "interview_NORMALIZED_TEST_001"
  , participant_name := "candidate_prajwal" }

/-- Environment in which every suspension point succeeds. -/
def envAllOk : StartEnv :=
  { initFetch := FetchResult.response ok200
  , tokenFetch := FetchResult.response ok200
  , tokenData := goodToken
  , connect := ConnectResult.ok
  , mic := MicResult.ok }

/-- Successful session whose `publishTrack` call fails after the microphone
track was created. -/
def envPubFail : StartEnv := { envAllOk with mic := MicResult.publishErr "publish failed" }

/-- Successful connection whose `createLocalAudioTrack` call fails. -/
def envMicFail : StartEnv := { envAllOk with mic := MicResult.createErr "Permission denied" }

/-- Credential request answered with HTTP 500 and body `server error`. -/
def envTokenFail : StartEnv :=
  { envAllOk with tokenFetch := FetchResult.response { status := 500, body := "server error" } }

/-- Initialize request answered with HTTP 500 and body `init broke`. -/
def envInitFail : StartEnv :=
  { envAllOk with initFetch := FetchResult.response { status := 500, body := "init broke" } }

/-- Teardown notification that resolves 2xx. -/
def tdOk : TeardownEnv := { teardown := FetchResult.response ok200 }

/-- Teardown notification whose fetch promise rejects. -/
def tdFail : TeardownEnv := { teardown := FetchResult.reject "network down" }

/-- Teardown notification answered with HTTP 500 and body `oops`. -/
def tdBad : TeardownEnv := { teardown := FetchResult.response { status := 500, body := "oops" } }

/-- A world in which a start is already in flight. -/
def wBusy : World := { initialWorld with isConnecting := true }

/-- The world after a fully successful `startVoiceInterview` run. -/
def wConn : World := (startVoiceInterview envAllOk initialWorld).1

/-- The world after a run in which publishing the created track failed. -/
def wAfterPubFail : World := (startVoiceInterview envPubFail initialWorld).1

theorem hasPre_refl : ∀ l : List Char, hasPre l l = true
  | [] => rfl
  | a :: as => by simp [hasPre, hasPre_refl as]

theorem hasPre_ext : ∀ n s b, hasPre n s = true → hasPre n (s ++ b) = true
  | [], _, _, _ => rfl
  | _ :: _, [], _, h => by simp [hasPre] at h
  | a :: as, c :: cs, b, h => by
    simp [hasPre] at h ⊢
    exact ⟨h.1, hasPre_ext as cs b h.2⟩

theorem subOcc_nil_needle : ∀ h, subOcc ([] : List Char) h = true
  | [] => rfl
  | _ :: _ => by simp [subOcc, hasPre]

theorem subOcc_of_hasPre : ∀ n h, hasPre n h = true → subOcc n h = true
  | n, [], hp => by
    cases n with
    | nil => rfl
    | cons a as => simp [hasPre] at hp
  | _, _ :: _, hp => by simp [subOcc, hp]

theorem subOcc_app_left : ∀ a n h, subOcc n h = true → subOcc n (a ++ h) = true
  | [], _, _, hs => hs
  | c :: cs, n, h, hs => by
    have ih := subOcc_app_left cs n h hs
    simp [subOcc, ih]

theorem subOcc_app_r : ∀ n h b, subOcc n h = true → subOcc n (h ++ b) = true
  | n, [], b, hs => by
    have hn : n = [] := by
      cases n with
      | nil => rfl
      | cons a as => simp [subOcc, List.isEmpty] at hs
    subst hn
    exact subOcc_nil_needle b
  | n, c :: cs, b, hs => by
    have hs2 : hasPre n (c :: cs) = true ∨ subOcc n cs = true := by
      simpa [subOcc] using hs
    cases hs2 with
    | inl h1 =>
      have := hasPre_ext n (c :: cs) b h1
      simp [subOcc]
      exact Or.inl (by simpa using this)
    | inr h2 =>
      have ih := subOcc_app_r n cs b h2
      simp [subOcc, ih]

theorem strData_append (a b : String) : (a ++ b).data = a.data ++ b.data := rfl

theorem strContains_refl (s : String) : strContains s s = true :=
  subOcc_of_hasPre s.data s.data (hasPre_refl s.data)

theorem strContains_app_left (a : String) {n h : String}
    (hs : strContains n h = true) : strContains n (a ++ h) = true := by
  have := subOcc_app_left a.data n.data h.data hs
  simpa [strContains, strData_append] using this

theorem strContains_app_r (b : String) {n h : String}
    (hs : strContains n h = true) : strContains n (h ++ b) = true := by
  have := subOcc_app_r n.data h.data b.data hs
  simpa [strContains, strData_append] using this

theorem countEff_append (p : Effect → Bool) :
    ∀ a b : List Effect, countEff p (a ++ b) = countEff p a + countEff p b
  | [], b => by simp [countEff]
  | e :: a, b => by simp [countEff, countEff_append p a b, Nat.add_assoc]

/-- Claim C2: calling start() while the session is already Connecting or
Connected is a no-op that returns immediately — the state is unchanged and
no effect (no credential request, no connection attempt) is issued. -/
theorem C2_reentrancy_guard (env : StartEnv) (w : World)
    (h : (w.isConnecting || w.isConnected) = true) :
    startVoiceInterview env w = (w, []) := by
  simp [startVoiceInterview, h]

/-- Claim C2 witness: a concrete world with a start in flight, on which a
second start() is a no-op with an empty effect trace. -/
theorem C2_reentrancy_guard_witness :
    (wBusy.isConnecting || wBusy.isConnected) = true ∧
      startVoiceInterview envAllOk wBusy = (wBusy, []) :=
  ⟨by decide, C2_reentrancy_guard envAllOk wBusy (by decide)⟩

/-- Claim C10: stopVoiceInterview always issues the backend teardown POST to
`/stop_livekit_interview/` (with the Organization header and reference
number), from any state — even with no room open and no local track held. -/
theorem C10_stop_always_notifies (w : World) (td : TeardownEnv) :
    Effect.fetchStop (CONFIG.apiUrl ++ "/stop_livekit_interview/")
      CONFIG.organization CONFIG.referenceNumber ∈ (stopVoiceInterview td w).2 := by
  cases hl : w.localAudioTrack <;> cases hr : w.room <;> cases ht : td.teardown <;>
    simp [stopVoiceInterview, hl, hr, ht]

/-- Claim C1 counterexample: after a successful connection whose
`publishTrack` call failed, the created microphone track is neither stored
nor stopped; calling stop() afterwards (with the teardown succeeding)
still leaves the device captured, refuting the claim that after stop()
settles from any state no local media device remains captured. -/
theorem C1_cex :
    wAfterPubFail.deviceLive = true ∧
    wAfterPubFail.localAudioTrack = none ∧
    (stopVoiceInterview tdOk wAfterPubFail).1.deviceLive = true := by decide

/-- Claim C1 (amended): after stop() settles, the transport connection is
closed and the track referenced by the stored handle is stopped, even if
the teardown notification fails — provided every live device is reachable
through the stored handle and every open connection through the stored
room (which a publish failure or a remote disconnect can break). -/
theorem C1_stop_releases_held_resources (w : World) (td : TeardownEnv)
    (hdev : w.deviceLive = true → w.localAudioTrack = some ())
    (hcon : w.connectionOpen = true → w.room = some ()) :
    (stopVoiceInterview td w).1.deviceLive = false ∧
    (stopVoiceInterview td w).1.connectionOpen = false ∧
    (stopVoiceInterview td w).1.localAudioTrack = none := by
  cases hl : w.localAudioTrack with
  | none =>
    have hd : w.deviceLive = false := by
      cases hv : w.deviceLive with
      | false => rfl
      | true => rw [hdev hv] at hl; exact absurd hl (by simp)
    cases hr : w.room with
    | none =>
      have hc : w.connectionOpen = false := by
        cases hv : w.connectionOpen with
        | false => rfl
        | true => rw [hcon hv] at hr; exact absurd hr (by simp)
      cases ht : td.teardown <;>
        simp [stopVoiceInterview, hl, hr, ht, hd, hc, setStatus]
    | some u =>
      cases ht : td.teardown <;>
        simp [stopVoiceInterview, hl, hr, ht, hd, setStatus]
  | some u =>
    cases hr : w.room with
    | none =>
      have hc : w.connectionOpen = false := by
        cases hv : w.connectionOpen with
        | false => rfl
        | true => rw [hcon hv] at hr; exact absurd hr (by simp)
      cases ht : td.teardown <;>
        simp [stopVoiceInterview, hl, hr, ht, hc, setStatus]
    | some v =>
      cases ht : td.teardown <;>
        simp [stopVoiceInterview, hl, hr, ht, setStatus]

/-- Claim C1 witness: from the fully connected world, stop() with a failing
teardown notification still frees the device and closes the connection. -/
theorem C1_stop_releases_held_resources_witness :
    (wConn.deviceLive = true → wConn.localAudioTrack = some ()) ∧
    ((stopVoiceInterview tdFail wConn).1.deviceLive = false ∧
      (stopVoiceInterview tdFail wConn).1.connectionOpen = false ∧
      (stopVoiceInterview tdFail wConn).1.localAudioTrack = none) :=
  ⟨by decide, C1_stop_releases_held_resources wConn tdFail (by decide) (by decide)⟩

/-- Claim C4 counterexample: on a remote-initiated disconnect from the
Connected world, the handler clears the stored handle and the state, but
emits no `track.stop()` — the captured device stays live, refuting the
claim that the local track is released on every transition out of
Connected. -/
theorem C4_cex :
    wConn.isConnected = true ∧
    wConn.deviceLive = true ∧
    (deliverEvent wConn RoomEvt.disconnected).1.isConnected = false ∧
    (deliverEvent wConn RoomEvt.disconnected).1.localAudioTrack = none ∧
    (deliverEvent wConn RoomEvt.disconnected).1.deviceLive = true ∧
    countEff isTrackStopEff (deliverEvent wConn RoomEvt.disconnected).2 = 0 := by
  decide

/-- Claim C4 (amended): the local track is stopped (device freed) exactly by
an explicit stop() that finds the stored handle; the remote-disconnect
handler only clears the reference, leaving the capture state unchanged. -/
theorem C4_release_only_on_explicit_stop (w : World) (td : TeardownEnv)
    (h : w.localAudioTrack = some ()) :
    countEff isTrackStopEff (stopVoiceInterview td w).2 = 1 ∧
    (stopVoiceInterview td w).1.deviceLive = false ∧
    countEff isTrackStopEff (deliverEvent w RoomEvt.disconnected).2 = 0 ∧
    (deliverEvent w RoomEvt.disconnected).1.localAudioTrack = none ∧
    (deliverEvent w RoomEvt.disconnected).1.deviceLive = w.deviceLive := by
  cases hr : w.room <;> cases ht : td.teardown <;>
    simp [stopVoiceInterview, deliverEvent, h, hr, ht, setStatus,
      countEff_append, countEff, isTrackStopEff]

/-- Claim C4 witness: in the connected world the explicit stop() emits the
one track-stop, while a remote disconnect emits none. -/
theorem C4_release_only_on_explicit_stop_witness :
    wConn.localAudioTrack = some () ∧
    (countEff isTrackStopEff (stopVoiceInterview tdOk wConn).2 = 1 ∧
      (stopVoiceInterview tdOk wConn).1.deviceLive = false ∧
      countEff isTrackStopEff (deliverEvent wConn RoomEvt.disconnected).2 = 0 ∧
      (deliverEvent wConn RoomEvt.disconnected).1.localAudioTrack = none ∧
      (deliverEvent wConn RoomEvt.disconnected).1.deviceLive = wConn.deviceLive) :=
  ⟨by decide, C4_release_only_on_explicit_stop wConn tdOk (by decide)⟩

/-- Claim C3: if the credential request returns non-2xx, the session ends in
the Failed state, the surfaced message contains the response status and
body text, and no connection attempt appears in the trace. -/
theorem C3_token_failure_goes_failed (env : StartEnv) (w : World) (r : HttpResponse)
    (hg : (w.isConnecting || w.isConnected) = false)
    (hi : env.initFetch.okResp = true)
    (ht : env.tokenFetch = FetchResult.response r)
    (hr : r.ok = false) :
    connState (startVoiceInterview env w).1 = ConnState.Failed ∧
    strContains (Nat.repr r.status) (startVoiceInterview env w).1.status = true ∧
    strContains r.body (startVoiceInterview env w).1.status = true ∧
    countEff isConnectEff (startVoiceInterview env w).2 = 0 := by
  obtain ⟨hg1, hg2⟩ := Bool.or_eq_false_iff.mp hg
  cases hfi : env.initFetch with
  | reject m0 => rw [hfi] at hi; simp [FetchResult.okResp] at hi
  | response r0 =>
    rw [hfi] at hi
    simp [FetchResult.okResp] at hi
    refine ⟨?_, ?_, ?_, ?_⟩ <;>
      simp [startVoiceInterview, hg1, hg2, getTokenFromBackend, hfi, hi, ht, hr,
        finishConnecting, setStatus, connState, countEff, isConnectEff]
    · exact strContains_app_left _
        (strContains_app_r _ (strContains_app_r _
          (strContains_app_left _ (strContains_refl _))))
    · exact strContains_app_left _
        (strContains_app_left _ (strContains_refl _))

/-- Claim C3 witness: the spec's scenario — credential request answered with
HTTP 500 and body `server error` from the idle world. -/
theorem C3_token_failure_goes_failed_witness :
    (initialWorld.isConnecting || initialWorld.isConnected) = false ∧
    envTokenFail.initFetch.okResp = true ∧
    (connState (startVoiceInterview envTokenFail initialWorld).1 = ConnState.Failed ∧
      strContains (Nat.repr (500 : Nat))
        (startVoiceInterview envTokenFail initialWorld).1.status = true ∧
      strContains "server error"
        (startVoiceInterview envTokenFail initialWorld).1.status = true ∧
      countEff isConnectEff (startVoiceInterview envTokenFail initialWorld).2 = 0) :=
  ⟨by decide, by decide,
    C3_token_failure_goes_failed envTokenFail initialWorld
      { status := 500, body := "server error" } (by decide) (by decide) rfl rfl⟩

/-- Claim C5 counterexample: with the microphone acquisition failing
(permission denied) after a successful connection, the session stays
Connected — it does not transition to Failed as the claim states. -/
theorem C5_cex :
    connState (startVoiceInterview envMicFail initialWorld).1 = ConnState.Connected ∧
    (startVoiceInterview envMicFail initialWorld).1.isConnected = true ∧
    ConnState.Connected ≠ ConnState.Failed := by decide

/-- Claim C5 (amended): a microphone acquisition failure surfaces a
device-specific error message in the status log, but the session remains
Connected; no transition to Failed occurs. -/
theorem C5_mic_error_stays_connected (env : StartEnv) (w : World) (msg : String)
    (hg : (w.isConnecting || w.isConnected) = false)
    (hi : env.initFetch.okResp = true)
    (htk : env.tokenFetch.okResp = true)
    (hc : env.connect = ConnectResult.ok)
    (hm : env.mic = MicResult.createErr msg) :
    (startVoiceInterview env w).1.isConnected = true ∧
    connState (startVoiceInterview env w).1 = ConnState.Connected ∧
    (startVoiceInterview env w).1.statusType = StatusType.error ∧
    strContains msg (startVoiceInterview env w).1.status = true := by
  obtain ⟨hg1, hg2⟩ := Bool.or_eq_false_iff.mp hg
  cases hfi : env.initFetch with
  | reject m0 => rw [hfi] at hi; simp [FetchResult.okResp] at hi
  | response r0 =>
    rw [hfi] at hi
    simp [FetchResult.okResp] at hi
    cases hft : env.tokenFetch with
    | reject m1 => rw [hft] at htk; simp [FetchResult.okResp] at htk
    | response r1 =>
      rw [hft] at htk
      simp [FetchResult.okResp] at htk
      refine ⟨?_, ?_, ?_, ?_⟩ <;>
        simp [startVoiceInterview, hg1, hg2, getTokenFromBackend, hfi, hft, hi, htk,
          hc, hm, onRoomConnected, enableMicrophone, handleParticipantUpdate,
          finishConnecting, setStatus, connState]
      exact strContains_app_left _ (strContains_refl msg)

/-- Claim C5 witness: the concrete permission-denied run stays Connected and
surfaces the device error text. -/
theorem C5_mic_error_stays_connected_witness :
    envMicFail.mic = MicResult.createErr "Permission denied" ∧
    ((startVoiceInterview envMicFail initialWorld).1.isConnected = true ∧
      connState (startVoiceInterview envMicFail initialWorld).1 = ConnState.Connected ∧
      (startVoiceInterview envMicFail initialWorld).1.statusType = StatusType.error ∧
      strContains "Permission denied"
        (startVoiceInterview envMicFail initialWorld).1.status = true) :=
  ⟨rfl, C5_mic_error_stays_connected envMicFail initialWorld "Permission denied"
    (by decide) (by decide) (by decide) rfl rfl⟩

/-- Claim C7 counterexample: in the successful concrete run the listeners
registered strictly before the connection attempt are the six named ones —
their number is six, not five as the claim counts them. -/
theorem C7_cex :
    regsUntilConnect (startVoiceInterview envAllOk initialWorld).2 = roomListenerOrder ∧
    (regsUntilConnect (startVoiceInterview envAllOk initialWorld).2).length ≠ 5 := by
  decide

/-- Claim C7 (amended): whenever start() reaches the connection attempt, the
six event listeners (connected, participant-joined, participant-left,
track-subscribed, track-unsubscribed, disconnected) have all been
registered strictly before it, and exactly one connection attempt is
issued. -/
theorem C7_six_listeners_before_connect (env : StartEnv) (w : World)
    (hg : (w.isConnecting || w.isConnected) = false)
    (hi : env.initFetch.okResp = true)
    (htk : env.tokenFetch.okResp = true) :
    regsUntilConnect (startVoiceInterview env w).2 = roomListenerOrder ∧
    countEff isConnectEff (startVoiceInterview env w).2 = 1 ∧
    roomListenerOrder.length = 6 := by
  obtain ⟨hg1, hg2⟩ := Bool.or_eq_false_iff.mp hg
  cases hfi : env.initFetch with
  | reject m0 => rw [hfi] at hi; simp [FetchResult.okResp] at hi
  | response r0 =>
    rw [hfi] at hi
    simp [FetchResult.okResp] at hi
    cases hft : env.tokenFetch with
    | reject m1 => rw [hft] at htk; simp [FetchResult.okResp] at htk
    | response r1 =>
      rw [hft] at htk
      simp [FetchResult.okResp] at htk
      cases hc : env.connect with
      | reject m2 =>
        simp [startVoiceInterview, hg1, hg2, getTokenFromBackend, hfi, hft, hi, htk,
          hc, roomListenerOrder, regsUntilConnect, countEff, isConnectEff,
          finishConnecting, setStatus]
      | ok =>
        cases hm : env.mic <;>
          simp [startVoiceInterview, hg1, hg2, getTokenFromBackend, hfi, hft, hi, htk,
            hc, hm, roomListenerOrder, regsUntilConnect, countEff, isConnectEff,
            onRoomConnected, enableMicrophone, handleParticipantUpdate,
            finishConnecting, setStatus]

/-- Claim C7 witness: the amended property at the successful concrete run. -/
theorem C7_six_listeners_before_connect_witness :
    (initialWorld.isConnecting || initialWorld.isConnected) = false ∧
    (regsUntilConnect (startVoiceInterview envAllOk initialWorld).2 = roomListenerOrder ∧
      countEff isConnectEff (startVoiceInterview envAllOk initialWorld).2 = 1 ∧
      roomListenerOrder.length = 6) :=
  ⟨by decide,
    C7_six_listeners_before_connect envAllOk initialWorld
      (by decide) (by decide) (by decide)⟩

/-- Claim C8: once the connection succeeds, microphone capture is requested
exactly once, with echo cancellation, noise suppression and automatic gain
control all enabled, and when creation succeeds the track is published
exactly once. -/
theorem C8_mic_acquired_once (env : StartEnv) (w : World)
    (hg : (w.isConnecting || w.isConnected) = false)
    (hi : env.initFetch.okResp = true)
    (htk : env.tokenFetch.okResp = true)
    (hc : env.connect = ConnectResult.ok) :
    countEff isMicCreateEff (startVoiceInterview env w).2 = 1 ∧
    Effect.createMicTrack true true true ∈ (startVoiceInterview env w).2 ∧
    (env.mic = MicResult.ok →
      countEff isPublishEff (startVoiceInterview env w).2 = 1) := by
  obtain ⟨hg1, hg2⟩ := Bool.or_eq_false_iff.mp hg
  cases hfi : env.initFetch with
  | reject m0 => rw [hfi] at hi; simp [FetchResult.okResp] at hi
  | response r0 =>
    rw [hfi] at hi
    simp [FetchResult.okResp] at hi
    cases hft : env.tokenFetch with
    | reject m1 => rw [hft] at htk; simp [FetchResult.okResp] at htk
    | response r1 =>
      rw [hft] at htk
      simp [FetchResult.okResp] at htk
      cases hm : env.mic <;>
        simp [startVoiceInterview, hg1, hg2, getTokenFromBackend, hfi, hft, hi, htk,
          hc, hm, roomListenerOrder, countEff, isMicCreateEff, isPublishEff,
          onRoomConnected, enableMicrophone, handleParticipantUpdate,
          finishConnecting, setStatus]

/-- Claim C8 witness: the spec's success scenario — all requests succeed and
the microphone is acquired exactly once and published. -/
theorem C8_mic_acquired_once_witness :
    envAllOk.mic = MicResult.ok ∧
    (countEff isMicCreateEff (startVoiceInterview envAllOk initialWorld).2 = 1 ∧
      Effect.createMicTrack true true true ∈ (startVoiceInterview envAllOk initialWorld).2 ∧
      (envAllOk.mic = MicResult.ok →
        countEff isPublishEff (startVoiceInterview envAllOk initialWorld).2 = 1)) :=
  ⟨rfl, C8_mic_acquired_once envAllOk initialWorld
    (by decide) (by decide) (by decide) rfl⟩

theorem startTrace_org (env : StartEnv) (w : World) :
    (startVoiceInterview env w).2.all effOrgOk = true := by
  cases hg : (w.isConnecting || w.isConnected) with
  | true => simp [startVoiceInterview, hg]
  | false =>
    obtain ⟨hg1, hg2⟩ := Bool.or_eq_false_iff.mp hg
    cases hfi : env.initFetch with
    | reject m0 =>
      simp [startVoiceInterview, hg1, hg2, getTokenFromBackend, hfi,
        finishConnecting, setStatus, effOrgOk]
    | response r0 =>
      cases hr0 : r0.ok with
      | false =>
        simp [startVoiceInterview, hg1, hg2, getTokenFromBackend, hfi, hr0,
          finishConnecting, setStatus, effOrgOk]
      | true =>
        cases hft : env.tokenFetch with
        | reject m1 =>
          simp [startVoiceInterview, hg1, hg2, getTokenFromBackend, hfi, hr0,
            hft, finishConnecting, setStatus, effOrgOk]
        | response r1 =>
          cases hr1 : r1.ok with
          | false =>
            simp [startVoiceInterview, hg1, hg2, getTokenFromBackend, hfi, hr0,
              hft, hr1, finishConnecting, setStatus, effOrgOk]
          | true =>
            cases hc : env.connect with
            | reject m2 =>
              simp [startVoiceInterview, hg1, hg2, getTokenFromBackend, hfi,
                hr0, hft, hr1, hc, roomListenerOrder, finishConnecting,
                setStatus, effOrgOk]
            | ok =>
              cases hm : env.mic <;>
                simp [startVoiceInterview, hg1, hg2, getTokenFromBackend, hfi,
                  hr0, hft, hr1, hc, hm, roomListenerOrder, onRoomConnected,
                  enableMicrophone, handleParticipantUpdate, finishConnecting,
                  setStatus, effOrgOk]

theorem stopTrace_org (td : TeardownEnv) (w : World) :
    (stopVoiceInterview td w).2.all effOrgOk = true := by
  cases hl : w.localAudioTrack <;> cases hr : w.room <;> cases ht : td.teardown <;>
    simp [stopVoiceInterview, hl, hr, ht, setStatus, effOrgOk]

/-- Claim C9 counterexample: a teardown notification answered with HTTP 500
and body `oops` is not treated as a failure — stop() still surfaces the
success message and the response body appears nowhere, refuting the claim
that all three requests treat non-2xx responses as failures carrying the
body text. -/
theorem C9_cex :
    (stopVoiceInterview tdBad initialWorld).1.statusType = StatusType.success ∧
    strContains "oops" (stopVoiceInterview tdBad initialWorld).1.status = false := by
  decide

/-- Claim C9 (amended): all three backend requests carry the Organization
header identifying the tenant; a non-2xx response to the initialize or
credential request surfaces an error containing the response status and
body text, while the teardown response status is never checked — a
resolved teardown fetch yields the success status whatever its code. -/
theorem C9_org_header_and_error_bodies
    (env1 env2 env3 : StartEnv) (w : World) (td td2 : TeardownEnv)
    (r1 r3 r2 : HttpResponse)
    (hg : (w.isConnecting || w.isConnected) = false)
    (h2 : env2.initFetch = FetchResult.response r1)
    (h3 : r1.ok = false)
    (h5 : env3.initFetch.okResp = true)
    (h6 : env3.tokenFetch = FetchResult.response r3)
    (h7 : r3.ok = false)
    (h4 : td2.teardown = FetchResult.response r2) :
    (startVoiceInterview env1 w).2.all effOrgOk = true ∧
    (stopVoiceInterview td w).2.all effOrgOk = true ∧
    strContains (Nat.repr r1.status) (startVoiceInterview env2 w).1.status = true ∧
    strContains r1.body (startVoiceInterview env2 w).1.status = true ∧
    strContains (Nat.repr r3.status) (startVoiceInterview env3 w).1.status = true ∧
    strContains r3.body (startVoiceInterview env3 w).1.status = true ∧
    (stopVoiceInterview td2 w).1.statusType = StatusType.success := by
  obtain ⟨hg1, hg2⟩ := Bool.or_eq_false_iff.mp hg
  refine ⟨startTrace_org env1 w, stopTrace_org td w, ?_, ?_, ?_, ?_, ?_⟩
  · simp [startVoiceInterview, hg1, hg2, getTokenFromBackend, h2, h3,
      finishConnecting, setStatus]
    exact strContains_app_left _
      (strContains_app_r _ (strContains_app_r _
        (strContains_app_left _ (strContains_refl _))))
  · simp [startVoiceInterview, hg1, hg2, getTokenFromBackend, h2, h3,
      finishConnecting, setStatus]
    exact strContains_app_left _
      (strContains_app_left _ (strContains_refl _))
  · cases hfi : env3.initFetch with
    | reject m0 => rw [hfi] at h5; simp [FetchResult.okResp] at h5
    | response r0 =>
      rw [hfi] at h5
      simp [FetchResult.okResp] at h5
      simp [startVoiceInterview, hg1, hg2, getTokenFromBackend, hfi, h5, h6, h7,
        finishConnecting, setStatus]
      exact strContains_app_left _
        (strContains_app_r _ (strContains_app_r _
          (strContains_app_left _ (strContains_refl _))))
  · cases hfi : env3.initFetch with
    | reject m0 => rw [hfi] at h5; simp [FetchResult.okResp] at h5
    | response r0 =>
      rw [hfi] at h5
      simp [FetchResult.okResp] at h5
      simp [startVoiceInterview, hg1, hg2, getTokenFromBackend, hfi, h5, h6, h7,
        finishConnecting, setStatus]
      exact strContains_app_left _
        (strContains_app_left _ (strContains_refl _))
  · cases hl : w.localAudioTrack <;> cases hr : w.room <;>
      simp [stopVoiceInterview, hl, hr, h4, setStatus]

/-- Claim C9 witness: the amended property at concrete runs — a failing
initialize (500 `init broke`), a failing credential request (500
`server error`), and a teardown answered 500 `oops`. -/
theorem C9_org_header_and_error_bodies_witness :
    envInitFail.initFetch = FetchResult.response { status := 500, body := "init broke" } ∧
    ((startVoiceInterview envAllOk initialWorld).2.all effOrgOk = true ∧
      (stopVoiceInterview tdOk initialWorld).2.all effOrgOk = true ∧
      strContains (Nat.repr (500 : Nat))
        (startVoiceInterview envInitFail initialWorld).1.status = true ∧
      strContains "init broke"
        (startVoiceInterview envInitFail initialWorld).1.status = true ∧
      strContains (Nat.repr (500 : Nat))
        (startVoiceInterview envTokenFail initialWorld).1.status = true ∧
      strContains "server error"
        (startVoiceInterview envTokenFail initialWorld).1.status = true ∧
      (stopVoiceInterview tdBad initialWorld).1.statusType = StatusType.success) :=
  ⟨rfl, C9_org_header_and_error_bodies envAllOk envInitFail envTokenFail
    initialWorld tdOk tdBad
    { status := 500, body := "init broke" } { status := 500, body := "server error" }
    { status := 500, body := "oops" }
    (by decide) rfl (by decide) (by decide) rfl (by decide) rfl⟩

theorem handleParticipantUpdate_dom (w : World) :
    (handleParticipantUpdate w).domAudioElems = w.domAudioElems := by
  cases h : w.room <;> simp [handleParticipantUpdate, h]

theorem deliverEvents_counts : ∀ (evs : List RoomEvt) (w : World),
    countEff isAttachEff (deliverEvents w evs).2 = countAudioSub evs ∧
    countEff isDetachEff (deliverEvents w evs).2 = countUnsub evs ∧
    (deliverEvents w evs).1.domAudioElems = w.domAudioElems + countAudioSub evs
  | [], w => by simp [deliverEvents, countEff, countAudioSub, countUnsub]
  | e :: es, w => by
    obtain ⟨ih1, ih2, ih3⟩ := deliverEvents_counts es (deliverEvent w e).1
    cases e with
    | participantJoined id =>
      simp [deliverEvents, deliverEvent, setStatus, countEff_append, countEff,
        countAudioSub, countUnsub, handleParticipantUpdate_dom] at ih1 ih2 ih3 ⊢
      exact ⟨ih1, ih2, by rw [ih3]⟩
    | participantLeft id =>
      simp [deliverEvents, deliverEvent, setStatus, countEff_append, countEff,
        countAudioSub, countUnsub, handleParticipantUpdate_dom] at ih1 ih2 ih3 ⊢
      exact ⟨ih1, ih2, by rw [ih3]⟩
    | trackSubscribed k id =>
      cases k with
      | audio =>
        simp [deliverEvents, deliverEvent, setStatus, countEff_append, countEff,
          isAttachEff, isDetachEff, countAudioSub, countUnsub] at ih1 ih2 ih3 ⊢
        refine ⟨by rw [ih1]; omega, by rw [ih2], ?_⟩
        rw [ih3]
        omega
      | video =>
        simp [deliverEvents, deliverEvent, countEff_append, countEff,
          countAudioSub, countUnsub] at ih1 ih2 ih3 ⊢
        exact ⟨ih1, ih2, ih3⟩
    | trackUnsubscribed k =>
      simp [deliverEvents, deliverEvent, countEff_append, countEff,
        isAttachEff, isDetachEff, countAudioSub, countUnsub] at ih1 ih2 ih3 ⊢
      exact ⟨by rw [ih1], by rw [ih2]; omega, ih3⟩
    | disconnected =>
      simp [deliverEvents, deliverEvent, setStatus, countEff_append, countEff,
        countAudioSub, countUnsub] at ih1 ih2 ih3 ⊢
      exact ⟨ih1, ih2, ih3⟩

/-- Claim C6 counterexample: a session that receives one audio subscription
and its matching unsubscription, then stops: attach and detach counts are
equal, yet after teardown completes one autoplay audio element is still
appended to `document.body` — the playback sink is never removed, refuting
the no-leaked-playback-elements claim. -/
theorem C6_cex :
    countEff isAttachEff
      ((startVoiceInterview envAllOk initialWorld).2 ++
        (deliverEvents (startVoiceInterview envAllOk initialWorld).1
          [RoomEvt.trackSubscribed TKind.audio "agent",
           RoomEvt.trackUnsubscribed TKind.audio]).2) = 1 ∧
    countEff isDetachEff
      ((startVoiceInterview envAllOk initialWorld).2 ++
        (deliverEvents (startVoiceInterview envAllOk initialWorld).1
          [RoomEvt.trackSubscribed TKind.audio "agent",
           RoomEvt.trackUnsubscribed TKind.audio]).2) = 1 ∧
    (stopVoiceInterview tdOk
      (deliverEvents (startVoiceInterview envAllOk initialWorld).1
        [RoomEvt.trackSubscribed TKind.audio "agent",
         RoomEvt.trackUnsubscribed TKind.audio]).1).1.domAudioElems = 1 := by
  decide

/-- Claim C6 (amended): each audio track-subscribed event produces exactly
one attach (appending one element to the document) and each
track-unsubscribed event exactly one detach — so the counts are equal
exactly when the room service delivers one unsubscribe per audio
subscribe; teardown itself attaches and detaches nothing, and the number
of appended playback elements never decreases. -/
theorem C6_attach_detach_follow_service (w : World) (evs : List RoomEvt)
    (td : TeardownEnv) :
    countEff isAttachEff (deliverEvents w evs).2 = countAudioSub evs ∧
    countEff isDetachEff (deliverEvents w evs).2 = countUnsub evs ∧
    (deliverEvents w evs).1.domAudioElems = w.domAudioElems + countAudioSub evs ∧
    countEff isAttachEff (stopVoiceInterview td w).2 = 0 ∧
    countEff isDetachEff (stopVoiceInterview td w).2 = 0 ∧
    (stopVoiceInterview td w).1.domAudioElems = w.domAudioElems := by
  obtain ⟨h1, h2, h3⟩ := deliverEvents_counts evs w
  refine ⟨h1, h2, h3, ?_, ?_, ?_⟩ <;>
    cases hl : w.localAudioTrack <;> cases hr : w.room <;> cases ht : td.teardown <;>
      simp [stopVoiceInterview, hl, hr, ht, setStatus, countEff_append, countEff,
        isAttachEff, isDetachEff]
